import Mathlib

/-!
Verification of the staged investment-analysis pipeline of
yogeshshepal/Finance-Analysis (src/app.py) against its specification.

The pure parts of the program (ticker/company extraction, ticker
validation) are embedded directly.  The external collaborators (the four
reasoning agents and the yfinance provider) are modelled as an explicit
environment of functions; an agent call that raises an exception is the
`Except.error` branch, carrying the exception message, exactly where the
Python code would raise.  Queries come from `input().strip()` and hence
contain no newline; the regex embeddings below are stated for such inputs.
-/

namespace FinanceAnalysis

/-- The character class `[A-Z]` of the regexes in src/app.py. -/
def isUpperAlpha (c : Char) : Bool := c.isUpper

/-- A word character for the regex metacharacters `\b` and `\w`
    (`[A-Za-z0-9_]` on the ASCII queries this program reads). -/
def isWordChar (c : Char) : Bool := c.isAlpha || c.isDigit || c == '_'

/-- Helper for `wordRuns`: returns the run of word characters at the left
    end of the input (possibly empty) and the list of later maximal runs. -/
def wordRunsAux : List Char → List Char × List (List Char)
  | [] => ([], [])
  | c :: cs =>
    let r := wordRunsAux cs
    if isWordChar c then (c :: r.1, r.2)
    else ([], if r.1.isEmpty then r.2 else r.1 :: r.2)

/-- The maximal runs of word characters of a string, in order: the spans
    matched by `\w+`, whose ends are exactly the positions where `\b` holds. -/
def wordRuns (cs : List Char) : List (List Char) :=
  let r := wordRunsAux cs
  if r.1.isEmpty then r.2 else r.1 :: r.2

/-- Embeds `extract_ticker` (src/app.py lines 28-32): the first match of
    `re.findall(r'\b([A-Z]{1,5})\b', query)`.  For this pattern a match is
    exactly a maximal word-character run consisting of 1 to 5 uppercase
    letters (a shorter sub-match is impossible because the following
    character would be a word character, killing the closing `\b`), so the
    result is the first such run. -/
def extract_ticker (query : String) : Option String :=
  ((wordRuns query.data).find? fun w =>
      !w.isEmpty && decide (w.length ≤ 5) && w.all isUpperAlpha).map
    fun w => String.mk w

/-- Embeds `validate_ticker` (src/app.py lines 24-26):
    `bool(re.match(r'^[A-Z]{1,5}$', ticker))`.  As in Python, `$` also
    matches just before a single final newline. -/
def validate_ticker (ticker : String) : Bool :=
  let cs := ticker.data
  let cs := if cs.getLast? = some '\n' then cs.dropLast else cs
  !cs.isEmpty && decide (cs.length ≤ 5) && cs.all isUpperAlpha

/-- Case-insensitive character comparison, the effect of `re.IGNORECASE`
    on the ASCII pattern alphabet. -/
def lowerEq (a b : Char) : Bool := a.toLower == b.toLower

/-- If `pat` is a case-insensitive prefix of `hay`, the remainder of `hay`
    after it; otherwise `none`. -/
def dropCIPre : List Char → List Char → Option (List Char)
  | [], hay => some hay
  | _ :: _, [] => none
  | p :: ps, h :: hs => if lowerEq p h then dropCIPre ps hs else none

/-- The remainder of `hay` after the leftmost case-insensitive occurrence
    of `pat`: the semantics of `re.search` for a pattern `pat(.*?)$` on a
    newline-free string, whose lazy group captures that whole remainder. -/
def searchCI (pat : List Char) : List Char → Option (List Char)
  | [] => dropCIPre pat []
  | h :: hs =>
    match dropCIPre pat (h :: hs) with
    | some rest => some rest
    | none => searchCI pat hs

/-- The characters of `hay` strictly before the leftmost case-insensitive
    occurrence of `pat`: the lazy capture of `(.*?)` followed by `pat`. -/
def captureToCI (pat : List Char) : List Char → Option (List Char)
  | [] => if (dropCIPre pat []).isSome then some [] else none
  | h :: hs =>
    if (dropCIPre pat (h :: hs)).isSome then some []
    else (captureToCI pat hs).map fun cap => h :: cap

/-- `re.search` semantics for a pattern `pre(.*?)post`: the capture at the
    leftmost position where `pre` matches case-insensitively and `post`
    occurs somewhere after it (a position where `post` never follows is
    skipped, as the backtracking engine does). -/
def searchBetweenCI (pre post : List Char) : List Char → Option (List Char)
  | [] =>
    match dropCIPre pre [] with
    | some rest => captureToCI post rest
    | none => none
  | h :: hs =>
    match dropCIPre pre (h :: hs) with
    | some rest =>
      match captureToCI post rest with
      | some cap => some cap
      | none => searchBetweenCI pre post hs
    | none => searchBetweenCI pre post hs

/-- Python `str.strip()`: whitespace removed from both ends. -/
def stripChars (cs : List Char) : List Char :=
  ((cs.dropWhile Char.isWhitespace).reverse.dropWhile Char.isWhitespace).reverse

/-- Embeds `extract_company_name` (src/app.py lines 34-47): the five
    patterns are tried in order, case-insensitively, and the stripped
    capture of the first one that matches is returned.  For the four
    patterns ending in `(.*?)$` the capture runs to the end of the
    (newline-free) query. -/
def extract_company_name (query : String) : Option String :=
  match searchBetweenCI "analysis of ".data " please".data query.data with
  | some cap => some (String.mk (stripChars cap))
  | none =>
    match searchCI "research on ".data query.data with
    | some cap => some (String.mk (stripChars cap))
    | none =>
      match searchCI "information about ".data query.data with
      | some cap => some (String.mk (stripChars cap))
      | none =>
        match searchCI "evaluate ".data query.data with
        | some cap => some (String.mk (stripChars cap))
        | none =>
          match searchCI "analyze ".data query.data with
          | some cap => some (String.mk (stripChars cap))
          | none => none

/-- Python truthiness of an optional string: `None` and `""` are falsy,
    as tested by `if not company_name and not ticker` in the pipeline. -/
def truthy : Option String → Bool
  | none => false
  | some s => !s.data.isEmpty

/-- Outcome of the yfinance fetch for a ticker, as observed by the caller
    of `get_yfinance_data`: a structured snapshot (abstracted by its
    serialised form, the string interpolated into the finance prompt by
    `json.dumps`) or a record carrying an `error` key. -/
inductive FinData where
  | ok (data : String)
  | err (msg : String)
deriving Repr, DecidableEq

/-- Embeds `get_yfinance_data` (src/app.py lines 84-149): the ticker format
    is validated before anything else; on failure the error record is
    returned without consulting the provider `fetch`.  A provider exception
    is caught inside the function and is `fetch`ʼs `err` outcome. -/
def get_yfinance_data (fetch : String → FinData) (ticker : String) : FinData :=
  if validate_ticker ticker then fetch ticker
  else FinData.err "Invalid ticker symbol"

/-- One entry of the `stages` mapping of the pipeline result
    (src/app.py lines 261-306). -/
structure StageResult where
  output : String
  status : String
  raw_data : Option String := none
deriving Repr, DecidableEq

/-- The dictionary returned by `investment_analysis_pipeline`.  Every field
    is optional because the extraction-failure return at line 242 is a
    dictionary holding only the `error` key; `none` models an absent key.
    `stages` is an insertion-ordered association list, like a Python dict. -/
structure PipelineResult where
  company : Option String := none
  ticker : Option String := none
  date : Option String := none
  stages : Option (List (String × StageResult)) := none
  final_report : Option String := none
  status : Option String := none
  error : Option String := none
deriving Repr, DecidableEq

/-- Python dict assignment `d[k] = v`: replaces the value in place when the
    key exists, otherwise appends, preserving insertion order. -/
def dictInsert (d : List (String × StageResult)) (k : String) (v : StageResult) :
    List (String × StageResult) :=
  if d.any fun p => p.1 == k then d.map fun p => if p.1 == k then (k, v) else p
  else d ++ [(k, v)]

/-- Python dict lookup on the `stages` mapping. -/
def dictFind (d : List (String × StageResult)) (k : String) : Option StageResult :=
  (d.find? fun p => p.1 == k).map Prod.snd

/-- The external collaborators of the pipeline: the four reasoning agents
    (`Except.error` is an exception escaping `run`, carrying its message as
    `str(e)` renders it) and the yfinance provider. -/
structure Env where
  research_run : String → Except String String
  finance_run : String → Except String String
  analysis_run : String → Except String String
  editor_run : String → Except String String
  fetch : String → FinData

/-- The research prompt of line 260. -/
def researchPrompt (company : String) : String :=
  "Comprehensive financial research on " ++ company

/-- The finance prompt of lines 278-280, with the snapshot serialisation
    abstracted as `data`. -/
def financePrompt (data : String) : String :=
  "Analyze these financial metrics: " ++ data

/-- The analysis-stage prompt, the f-string of lines 294-300. -/
def analysisPrompt (research quant : String) : String :=
  "\n        Qualitative Research:\n        " ++ research ++
  "\n        \n        Quantitative Analysis:\n        " ++ quant ++
  "\n        "

/-- The editorial prompt, the f-string of lines 310-319. -/
def editorPrompt (research quant analysis : String) : String :=
  "\n        Qualitative Research Summary:\n        " ++ research ++
  "\n        \n        Financial Analysis:\n        " ++ quant ++
  "\n        \n        Investment Analysis:\n        " ++ analysis ++
  "\n        "

/-- The guarded `stages` lookup used while building the analysis and
    editorial prompts (lines 299 and 315). -/
def quantOutput (stages : List (String × StageResult)) (dflt : String) : String :=
  match dictFind stages "quantitative_analysis" with
  | some st => st.output
  | none => dflt

/-- The early return of line 242 when neither entity was identified. -/
def extractionFailure : PipelineResult :=
  { error := some "Could not identify company or ticker from query" }

/-- Lines 238-246: the display company name falls back to the ticker when
    only the ticker is truthy; `none` when both are falsy. -/
def resolved_company (query : String) : Option String :=
  if !truthy (extract_company_name query) && truthy (extract_ticker query) then
    extract_ticker query
  else extract_company_name query

/-- The placeholder quantitative stage of lines 286-290. -/
def skippedStage : StageResult :=
  ⟨"No ticker provided - skipping quantitative analysis", "skipped", none⟩

/-- The mutation `results["stages"][name] = stage`. -/
def addStage (r : PipelineResult) (name : String) (st : StageResult) :
    PipelineResult :=
  { r with stages := some (dictInsert (r.stages.getD []) name st) }

/-- The body of the `try` block of `investment_analysis_pipeline`
    (src/app.py lines 257-327), after successful entity extraction; the
    single top-level `except` of lines 324-327 is the handling of the
    `Except.error` outcomes below, each recording the message on the
    partially built result.  `ts` is the `datetime.now().isoformat()`
    timestamp of line 253. -/
def pipelineStages (env : Env) (ts : String) (company_name ticker : Option String) :
    PipelineResult :=
  let base : PipelineResult :=
    { company := company_name, ticker := ticker, date := some ts, stages := some [] }
  match env.research_run (researchPrompt (company_name.getD "")) with
  | .error e => { base with status := some "failed", error := some e }
  | .ok research =>
    let r1 : PipelineResult :=
      addStage base "qualitative_research" ⟨research, "completed", none⟩
    let step2 : Except String PipelineResult :=
      if truthy ticker then
        match get_yfinance_data env.fetch (ticker.getD "") with
        | .err msg =>
          .ok (addStage r1 "quantitative_analysis" ⟨msg, "failed", none⟩)
        | .ok dat =>
          match env.finance_run (financePrompt dat) with
          | .error e => .error e
          | .ok fo =>
            .ok (addStage r1 "quantitative_analysis" ⟨fo, "completed", some dat⟩)
      else
        .ok (addStage r1 "quantitative_analysis" skippedStage)
    match step2 with
    | .error e => { r1 with status := some "failed", error := some e }
    | .ok r2 =>
      match env.analysis_run
          (analysisPrompt research
            (quantOutput (r2.stages.getD []) "No quantitative data available")) with
      | .error e => { r2 with status := some "failed", error := some e }
      | .ok analysis =>
        let r3 : PipelineResult :=
          addStage r2 "investment_analysis" ⟨analysis, "completed", none⟩
        match env.editor_run
            (editorPrompt research
              (quantOutput (r3.stages.getD []) "No financial data available")
              analysis) with
        | .error e => { r3 with status := some "failed", error := some e }
        | .ok fr => { r3 with final_report := some fr, status := some "success" }

/-- Embeds `investment_analysis_pipeline` (src/app.py lines 234-329). -/
def investment_analysis_pipeline (env : Env) (ts : String) (query : String) :
    PipelineResult :=
  if !truthy (extract_company_name query) && !truthy (extract_ticker query) then
    extractionFailure
  else pipelineStages env ts (resolved_company query) (extract_ticker query)

/-- An environment in which every external call succeeds: the four agents
    and the provider are deterministic stubs. -/
def mkOkEnv (r f a e : String → String) (d : String → String) : Env :=
  { research_run := fun p => .ok (r p)
    finance_run := fun p => .ok (f p)
    analysis_run := fun p => .ok (a p)
    editor_run := fun p => .ok (e p)
    fetch := fun t => .ok (d t) }

/-- A fully deterministic stub environment with fixed texts. -/
def stubEnv : Env :=
  mkOkEnv (fun _ => "research text") (fun _ => "finance text")
    (fun _ => "analysis text") (fun _ => "report text") (fun _ => "snapshot")

/-- A stub environment in which the finance agent raises. -/
def financeFailEnv : Env :=
  { research_run := fun _ => .ok "research text"
    finance_run := fun _ => .error "finance agent exception"
    analysis_run := fun _ => .ok "analysis text"
    editor_run := fun _ => .ok "report text"
    fetch := fun _ => FinData.ok "snapshot" }

/-- A stub environment in which the research agent raises. -/
def researchFailEnv : Env :=
  { research_run := fun _ => .error "research boom"
    finance_run := fun _ => .ok "finance text"
    analysis_run := fun _ => .ok "analysis text"
    editor_run := fun _ => .ok "report text"
    fetch := fun _ => FinData.ok "snapshot" }

/-- A stub environment in which the market-data provider reports an error. -/
def gatewayErrEnv : Env :=
  { research_run := fun _ => .ok "research text"
    finance_run := fun _ => .ok "finance text"
    analysis_run := fun _ => .ok "analysis text"
    editor_run := fun _ => .ok "report text"
    fetch := fun _ => FinData.err "provider down" }

/-- The ASCII apostrophe, kept out of string literals. -/
def apos : String := String.mk [Char.ofNat 39]

/-- The scenario-A query of the specification. -/
def teslaQuery : String :=
  "Analyze Tesla" ++ apos ++ "s financial position (TSLA)"

/-
Helper lemmas about the extractor.
-/

/-- Every successful `extract_ticker` result is a nonempty run of at most
    five uppercase letters. -/
theorem extract_ticker_shape {q t : String} (h : extract_ticker q = some t) :
    ∃ w : List Char, t = String.mk w ∧ w.isEmpty = false ∧ w.length ≤ 5 ∧
      w.all isUpperAlpha = true := by
  unfold extract_ticker at h
  rw [Option.map_eq_some'] at h
  obtain ⟨w, hfind, heq⟩ := h
  have hp := List.find?_some hfind
  simp only [Bool.and_eq_true, Bool.not_eq_true', decide_eq_true_eq] at hp
  exact ⟨w, heq.symm, hp.1.1, hp.1.2, hp.2⟩

/-- A nonempty run of at most five uppercase letters passes
    `validate_ticker`. -/
theorem validate_of_run {w : List Char} (hne : w.isEmpty = false)
    (hlen : w.length ≤ 5) (hall : w.all isUpperAlpha = true) :
    validate_ticker (String.mk w) = true := by
  have hlast : ¬ (String.mk w).data.getLast? = some '\n' := by
    intro h
    have hmem : '\n' ∈ w := List.mem_of_mem_getLast? (Option.mem_def.mpr h)
    have := List.all_eq_true.mp hall _ hmem
    simp [isUpperAlpha, Char.isUpper] at this
  unfold validate_ticker
  simp only [if_neg hlast]
  show (!w.isEmpty && decide (w.length ≤ 5) && w.all isUpperAlpha) = true
  simp [hne, hlen, hall]

/-- Every extracted ticker passes `validate_ticker`. -/
theorem extract_ticker_validates {q t : String} (h : extract_ticker q = some t) :
    validate_ticker t = true := by
  obtain ⟨w, rfl, h1, h2, h3⟩ := extract_ticker_shape h
  exact validate_of_run h1 h2 h3

/-- Every extracted ticker is truthy (nonempty). -/
theorem extract_ticker_truthy {q t : String} (h : extract_ticker q = some t) :
    truthy (some t) = true := by
  obtain ⟨w, rfl, h1, h2, h3⟩ := extract_ticker_shape h
  simp only [truthy]
  show (!w.isEmpty) = true
  simp [h1]

/-- The timestamp flows only into the `date` field of the result: the rest
    of a run is independent of it. -/
theorem pipelineStages_date (env : Env) (ts ts2 : String) (cn tk : Option String) :
    pipelineStages env ts cn tk
      = { pipelineStages env ts2 cn tk with date := some ts } := by
  unfold pipelineStages
  repeat' split
  all_goals simp_all [addStage]
  all_goals (repeat' split)
  all_goals simp_all

/-
The claims.
-/

/-- C1 (corrected): when extraction finds neither a truthy company name nor
    a truthy ticker, `investment_analysis_pipeline` returns, for every
    environment and timestamp, the record whose only populated field is
    `error = "Could not identify company or ticker from query"`: there is
    no `status` field, no `stages` map at all, and no stage is executed. -/
theorem C1_extraction_failure_record (env : Env) (ts query : String)
    (hc : truthy (extract_company_name query) = false)
    (ht : truthy (extract_ticker query) = false) :
    investment_analysis_pipeline env ts query =
      { error := some "Could not identify company or ticker from query" } := by
  unfold investment_analysis_pipeline
  rw [hc, ht]
  rfl

/-- C1, refuted as stated: on the query "hello world" extraction finds
    nothing, yet the result has no `status = "failed"`, carries a different
    error message than "no company or ticker identified", and its `stages`
    key is absent rather than present and empty. -/
theorem C1_counterexample :
    (investment_analysis_pipeline stubEnv "2024-01-01" "hello world").status
        ≠ some "failed" ∧
    (investment_analysis_pipeline stubEnv "2024-01-01" "hello world").error
        ≠ some "no company or ticker identified" ∧
    (investment_analysis_pipeline stubEnv "2024-01-01" "hello world").stages
        = none := by
  decide

/-- C1, witness: the amended statement at a concrete input. -/
theorem C1_extraction_failure_record_witness :
    truthy (extract_company_name "hello world") = false ∧
    truthy (extract_ticker "hello world") = false ∧
    investment_analysis_pipeline stubEnv "2024-01-01" "hello world" =
      { error := some "Could not identify company or ticker from query" } :=
  ⟨by decide, by decide,
    C1_extraction_failure_record stubEnv "2024-01-01" "hello world"
      (by decide) (by decide)⟩

/-- C2 (corrected): an exception from the finance agent is NOT caught at
    the stage level: it propagates to the single top-level handler, the run
    ends with top-level `status = "failed"` and `error` = the exception
    message, no `quantitative_analysis` entry is recorded, the
    investment-analysis stage is never attempted, and the already written
    `qualitative_research` entry is preserved. -/
theorem C2_finance_exception_fatal (env : Env)
    (ts query tk research dat e : String)
    (htk : extract_ticker query = some tk)
    (hr : env.research_run (researchPrompt ((resolved_company query).getD ""))
        = .ok research)
    (hf : env.fetch tk = FinData.ok dat)
    (hfin : env.finance_run (financePrompt dat) = .error e) :
    investment_analysis_pipeline env ts query =
      { company := resolved_company query, ticker := some tk, date := some ts,
        stages := some [("qualitative_research", ⟨research, "completed", none⟩)],
        status := some "failed", error := some e } := by
  have hty := extract_ticker_truthy htk
  have hval := extract_ticker_validates htk
  unfold investment_analysis_pipeline
  rw [htk, hty]
  simp only [Bool.not_true, Bool.and_false, Bool.false_eq_true, if_false]
  simp [pipelineStages, get_yfinance_data, hr, hty, hval, hf, hfin,
    addStage, dictInsert]

/-- C2, refuted as stated: with ticker AAPL extracted, the fetch
    succeeding and the finance agent raising, the run ends with top-level
    `status = "failed"`, the `quantitative_analysis` stage is not recorded
    as failed (it is absent), and the pipeline does not continue to the
    investment-analysis stage. -/
theorem C2_counterexample :
    (investment_analysis_pipeline financeFailEnv "2024-01-01"
        "Evaluate AAPL stock").status = some "failed" ∧
    dictFind ((investment_analysis_pipeline financeFailEnv "2024-01-01"
        "Evaluate AAPL stock").stages.getD []) "quantitative_analysis"
        = none ∧
    dictFind ((investment_analysis_pipeline financeFailEnv "2024-01-01"
        "Evaluate AAPL stock").stages.getD []) "investment_analysis"
        = none := by
  decide

/-- C2, witness: the amended statement at a concrete input. -/
theorem C2_finance_exception_fatal_witness :
    extract_ticker "Evaluate AAPL stock" = some "AAPL" ∧
    investment_analysis_pipeline financeFailEnv "2024-01-01"
        "Evaluate AAPL stock" =
      { company := resolved_company "Evaluate AAPL stock",
        ticker := some "AAPL", date := some "2024-01-01",
        stages := some [("qualitative_research",
          ⟨"research text", "completed", none⟩)],
        status := some "failed", error := some "finance agent exception" } :=
  ⟨by decide,
    C2_finance_exception_fatal financeFailEnv "2024-01-01"
      "Evaluate AAPL stock" "AAPL" "research text" "snapshot"
      "finance agent exception" (by decide) rfl rfl rfl⟩

/-- C3 (corrected): on the scenario-A query the extracted ticker is "TSLA"
    but the company name captured by `analyze (.*?)$` runs to the end of
    the string and is "Tesla s financial position (TSLA)" (with an
    apostrophe before the first s), including the parenthetical ticker.
    With every external call succeeding, the three tracked stages complete,
    the run ends with `status = "success"`, and `final_report` is the
    editorial output: present, and nonempty whenever the editorial
    capability returns nonempty text. -/
theorem C3_scenario_a (ts : String) (r f a e d : String → String)
    (hE : ∀ p, e p ≠ "") :
    extract_ticker teslaQuery = some "TSLA" ∧
    extract_company_name teslaQuery
        = some ("Tesla" ++ apos ++ "s financial position (TSLA)") ∧
    ((dictFind (((investment_analysis_pipeline (mkOkEnv r f a e d) ts
        teslaQuery).stages).getD []) "qualitative_research").map
        StageResult.status = some "completed" ∧
     (dictFind (((investment_analysis_pipeline (mkOkEnv r f a e d) ts
        teslaQuery).stages).getD []) "quantitative_analysis").map
        StageResult.status = some "completed" ∧
     (dictFind (((investment_analysis_pipeline (mkOkEnv r f a e d) ts
        teslaQuery).stages).getD []) "investment_analysis").map
        StageResult.status = some "completed") ∧
    (investment_analysis_pipeline (mkOkEnv r f a e d) ts teslaQuery).status
        = some "success" ∧
    (investment_analysis_pipeline (mkOkEnv r f a e d) ts teslaQuery).final_report
        ≠ none ∧
    (investment_analysis_pipeline (mkOkEnv r f a e d) ts teslaQuery).final_report
        ≠ some "" := by
  have htk : extract_ticker teslaQuery = some "TSLA" := by decide
  have hcn : extract_company_name teslaQuery
      = some ("Tesla" ++ apos ++ "s financial position (TSLA)") := by decide
  have hres : resolved_company teslaQuery
      = some ("Tesla" ++ apos ++ "s financial position (TSLA)") := by decide
  have h1 : truthy (some "TSLA") = true := by decide
  have h2 : truthy (some ("Tesla" ++ apos ++ "s financial position (TSLA)"))
      = true := by decide
  have hval : validate_ticker "TSLA" = true := by decide
  refine ⟨htk, hcn, ⟨?_, ?_, ?_⟩, ?_, ?_, ?_⟩ <;>
    simp [investment_analysis_pipeline, pipelineStages, mkOkEnv, addStage,
      dictInsert, quantOutput, dictFind, get_yfinance_data, htk, hcn, hres,
      h1, h2, hval, hE]

/-- C3, refuted as stated: the company name extracted from the scenario-A
    query is not "Tesla s financial position" (apostrophe before the first
    s) — the capture also contains " (TSLA)". -/
theorem C3_counterexample :
    extract_company_name teslaQuery
      ≠ some ("Tesla" ++ apos ++ "s financial position") := by
  decide

/-- C3, witness: the amended statement at concrete stubs. -/
theorem C3_scenario_a_witness :
    extract_ticker teslaQuery = some "TSLA" ∧
    extract_company_name teslaQuery
        = some ("Tesla" ++ apos ++ "s financial position (TSLA)") ∧
    ((dictFind (((investment_analysis_pipeline stubEnv "2024-01-01"
        teslaQuery).stages).getD []) "qualitative_research").map
        StageResult.status = some "completed" ∧
     (dictFind (((investment_analysis_pipeline stubEnv "2024-01-01"
        teslaQuery).stages).getD []) "quantitative_analysis").map
        StageResult.status = some "completed" ∧
     (dictFind (((investment_analysis_pipeline stubEnv "2024-01-01"
        teslaQuery).stages).getD []) "investment_analysis").map
        StageResult.status = some "completed") ∧
    (investment_analysis_pipeline stubEnv "2024-01-01" teslaQuery).status
        = some "success" ∧
    (investment_analysis_pipeline stubEnv "2024-01-01" teslaQuery).final_report
        ≠ none ∧
    (investment_analysis_pipeline stubEnv "2024-01-01" teslaQuery).final_report
        ≠ some "" :=
  C3_scenario_a "2024-01-01" (fun _ => "research text") (fun _ => "finance text")
    (fun _ => "analysis text") (fun _ => "report text") (fun _ => "snapshot")
    (fun _ => show "report text" ≠ "" by decide)

/-- C4 (confirmed): with a ticker extracted and the market-data fetch
    reporting an error, the `quantitative_analysis` stage is recorded with
    status "failed" and output equal to the gateway error message, the run
    continues, and when the remaining reasoning stages succeed it ends with
    top-level `status = "success"` — a gateway failure never aborts the
    run. -/
theorem C4_gateway_error_nonfatal (env : Env)
    (ts query tk research msg analysis report : String)
    (htk : extract_ticker query = some tk)
    (hr : env.research_run (researchPrompt ((resolved_company query).getD ""))
        = .ok research)
    (hf : env.fetch tk = FinData.err msg)
    (ha : env.analysis_run (analysisPrompt research msg) = .ok analysis)
    (he : env.editor_run (editorPrompt research msg analysis) = .ok report) :
    dictFind ((investment_analysis_pipeline env ts query).stages.getD [])
        "quantitative_analysis" = some ⟨msg, "failed", none⟩ ∧
    (investment_analysis_pipeline env ts query).status = some "success" := by
  have hty := extract_ticker_truthy htk
  have hval := extract_ticker_validates htk
  unfold investment_analysis_pipeline
  rw [htk, hty]
  simp only [Bool.not_true, Bool.and_false, Bool.false_eq_true, if_false]
  simp [pipelineStages, get_yfinance_data, hr, hty, hval, hf, ha, he,
    addStage, dictInsert, quantOutput, dictFind]

/-- C4, witness: the statement at a concrete input. -/
theorem C4_gateway_error_nonfatal_witness :
    extract_ticker "Evaluate MSFT stock" = some "MSFT" ∧
    (dictFind ((investment_analysis_pipeline gatewayErrEnv "2024-01-01"
        "Evaluate MSFT stock").stages.getD []) "quantitative_analysis"
        = some ⟨"provider down", "failed", none⟩ ∧
     (investment_analysis_pipeline gatewayErrEnv "2024-01-01"
        "Evaluate MSFT stock").status = some "success") :=
  ⟨by decide,
    C4_gateway_error_nonfatal gatewayErrEnv "2024-01-01" "Evaluate MSFT stock"
      "MSFT" "research text" "provider down" "analysis text" "report text"
      (by decide) rfl rfl rfl rfl⟩

/-- C5 (confirmed): when the qualitative-research call raises, the run ends
    immediately with top-level `status = "failed"` and `error` = the
    exception message; no later stage is attempted and the returned
    `stages` map is empty — in particular it contains neither a
    `qualitative_research` nor a `quantitative_analysis` entry, since an
    entry is written only after its stage completes successfully. -/
theorem C5_research_exception_fatal (env : Env) (ts query e : String)
    (hpass : (truthy (extract_company_name query)
        || truthy (extract_ticker query)) = true)
    (hr : env.research_run (researchPrompt ((resolved_company query).getD ""))
        = .error e) :
    investment_analysis_pipeline env ts query =
      { company := resolved_company query, ticker := extract_ticker query,
        date := some ts, stages := some [], status := some "failed",
        error := some e } := by
  unfold investment_analysis_pipeline
  have hguard : (!truthy (extract_company_name query)
      && !truthy (extract_ticker query)) = false := by
    cases h1 : truthy (extract_company_name query) <;>
      cases h2 : truthy (extract_ticker query) <;> simp_all
  rw [hguard]
  simp only [Bool.false_eq_true, if_false]
  unfold pipelineStages
  rw [hr]

/-- C5, witness: the statement at a concrete input. -/
theorem C5_research_exception_fatal_witness :
    (truthy (extract_company_name "Research on NVIDIA Corporation")
        || truthy (extract_ticker "Research on NVIDIA Corporation")) = true ∧
    investment_analysis_pipeline researchFailEnv "2024-01-01"
        "Research on NVIDIA Corporation" =
      { company := resolved_company "Research on NVIDIA Corporation",
        ticker := extract_ticker "Research on NVIDIA Corporation",
        date := some "2024-01-01", stages := some [],
        status := some "failed", error := some "research boom" } :=
  ⟨by decide,
    C5_research_exception_fatal researchFailEnv "2024-01-01"
      "Research on NVIDIA Corporation" "research boom" (by decide) rfl⟩

/-- C6 (corrected): in every run that passes entity extraction the `stages`
    map is an in-order prefix of qualitative_research, quantitative_analysis,
    investment_analysis with pairwise distinct keys (no entry is ever
    overwritten), and when no ticker was extracted AND the research stage
    succeeded, the `quantitative_analysis` entry is present with status
    "skipped" and the placeholder output; when a fatal failure aborts the
    run before stage 2, that entry is absent. -/
theorem C6_stage_order (env : Env) (ts query : String)
    (hpass : (truthy (extract_company_name query)
        || truthy (extract_ticker query)) = true) :
    (List.map Prod.fst
        ((investment_analysis_pipeline env ts query).stages.getD []))
      ∈ [([] : List String), ["qualitative_research"],
         ["qualitative_research", "quantitative_analysis"],
         ["qualitative_research", "quantitative_analysis",
          "investment_analysis"]] ∧
    (List.map Prod.fst
        ((investment_analysis_pipeline env ts query).stages.getD [])).Nodup ∧
    (extract_ticker query = none →
      ∀ research,
        env.research_run (researchPrompt ((resolved_company query).getD ""))
          = .ok research →
        dictFind ((investment_analysis_pipeline env ts query).stages.getD [])
          "quantitative_analysis" = some skippedStage) := by
  have hguard : (!truthy (extract_company_name query)
      && !truthy (extract_ticker query)) = false := by
    cases h1 : truthy (extract_company_name query) <;>
      cases h2 : truthy (extract_ticker query) <;> simp_all
  unfold investment_analysis_pipeline
  rw [hguard]
  simp only [Bool.false_eq_true, if_false]
  unfold pipelineStages
  refine ⟨?_, ?_, ?_⟩
  · repeat' split
    all_goals simp [addStage, dictInsert]
    all_goals (repeat' split)
    all_goals simp
  · repeat' split
    all_goals simp [addStage, dictInsert]
    all_goals (repeat' split)
    all_goals simp
  · intro htk research hR
    rw [hR, htk]
    simp only [truthy, Bool.false_eq_true, if_false]
    repeat' split
    all_goals simp [addStage, dictInsert, dictFind, skippedStage]

/-- C6, refuted as stated: a run that passes extraction with no ticker but
    whose research stage raises ends with an empty `stages` map, so the
    `quantitative_analysis` entry IS absent, contradicting "never
    absent". -/
theorem C6_counterexample :
    (truthy (extract_company_name "Research on NVIDIA Corporation")
        || truthy (extract_ticker "Research on NVIDIA Corporation")) = true ∧
    extract_ticker "Research on NVIDIA Corporation" = none ∧
    dictFind ((investment_analysis_pipeline researchFailEnv "2024-01-01"
        "Research on NVIDIA Corporation").stages.getD [])
      "quantitative_analysis" = none := by
  decide

/-- C6, witness: the amended statement at a concrete input. -/
theorem C6_stage_order_witness :
    (truthy (extract_company_name "Research on NVIDIA Corporation")
        || truthy (extract_ticker "Research on NVIDIA Corporation")) = true ∧
    ((List.map Prod.fst
        ((investment_analysis_pipeline stubEnv "2024-01-01"
          "Research on NVIDIA Corporation").stages.getD []))
      ∈ [([] : List String), ["qualitative_research"],
         ["qualitative_research", "quantitative_analysis"],
         ["qualitative_research", "quantitative_analysis",
          "investment_analysis"]] ∧
    (List.map Prod.fst
        ((investment_analysis_pipeline stubEnv "2024-01-01"
          "Research on NVIDIA Corporation").stages.getD [])).Nodup ∧
    (extract_ticker "Research on NVIDIA Corporation" = none →
      ∀ research,
        stubEnv.research_run
            (researchPrompt
              ((resolved_company "Research on NVIDIA Corporation").getD ""))
          = .ok research →
        dictFind ((investment_analysis_pipeline stubEnv "2024-01-01"
            "Research on NVIDIA Corporation").stages.getD [])
          "quantitative_analysis" = some skippedStage)) :=
  ⟨by decide,
    C6_stage_order stubEnv "2024-01-01" "Research on NVIDIA Corporation"
      (by decide)⟩

/-- C7 (confirmed): on the query "Research on NVIDIA Corporation" ticker
    extraction returns none (no standalone run of 1-5 uppercase letters
    exists), company-name extraction returns "NVIDIA Corporation", the
    `quantitative_analysis` stage is recorded with status "skipped", and
    with all reasoning calls succeeding the run ends with
    `status = "success"`. -/
theorem C7_scenario_b (ts : String) (r f a e d : String → String) :
    extract_ticker "Research on NVIDIA Corporation" = none ∧
    extract_company_name "Research on NVIDIA Corporation"
        = some "NVIDIA Corporation" ∧
    dictFind (((investment_analysis_pipeline (mkOkEnv r f a e d) ts
        "Research on NVIDIA Corporation").stages).getD [])
        "quantitative_analysis" = some skippedStage ∧
    (investment_analysis_pipeline (mkOkEnv r f a e d) ts
        "Research on NVIDIA Corporation").status = some "success" := by
  have htk : extract_ticker "Research on NVIDIA Corporation" = none := by
    decide
  have hcn : extract_company_name "Research on NVIDIA Corporation"
      = some "NVIDIA Corporation" := by decide
  have hres : resolved_company "Research on NVIDIA Corporation"
      = some "NVIDIA Corporation" := by decide
  have h1 : truthy (some "NVIDIA Corporation") = true := by decide
  refine ⟨htk, hcn, ?_, ?_⟩ <;>
    simp [investment_analysis_pipeline, pipelineStages, mkOkEnv, addStage,
      dictInsert, quantOutput, dictFind, htk, hcn, hres, h1, truthy,
      skippedStage]

/-- Every string accepted by `validate_ticker` is a nonempty run of at
    most five uppercase letters, possibly followed by one final newline
    (the strings matched by the Python pattern, whose `$` also matches
    just before a trailing newline). -/
theorem validate_ticker_shape {t : String} (h : validate_ticker t = true) :
    ∃ w : List Char, (t.data = w ∨ t.data = w ++ ['\n']) ∧
      w.isEmpty = false ∧ w.length ≤ 5 ∧ w.all isUpperAlpha = true := by
  unfold validate_ticker at h
  simp only [Bool.and_eq_true, Bool.not_eq_true', decide_eq_true_eq] at h
  by_cases hl : t.data.getLast? = some '\n'
  · obtain ⟨ys, hys⟩ := List.getLast?_eq_some_iff.mp hl
    rw [if_pos hl] at h
    refine ⟨t.data.dropLast, Or.inr ?_, h.1.1, h.1.2, h.2⟩
    rw [hys, List.dropLast_concat]
  · rw [if_neg hl] at h
    exact ⟨t.data, Or.inl rfl, h.1.1, h.1.2, h.2⟩

/-- C8 (corrected): any string that is not a run of 1-5 uppercase letters
    optionally followed by a single trailing newline is rejected by
    `get_yfinance_data` before any fetch: the result is the
    "Invalid ticker symbol" error record and is the same no matter what the
    data provider would have answered — the provider is never consulted.
    (Strings such as "AB" plus a newline are NOT rejected: the `$` of the
    Python pattern matches before a final newline, so they reach the
    provider.) -/
theorem C8_invalid_format_rejected (fetch fetch2 : String → FinData)
    (t : String)
    (h : ¬ ∃ w : List Char, (t.data = w ∨ t.data = w ++ ['\n']) ∧
        w.isEmpty = false ∧ w.length ≤ 5 ∧ w.all isUpperAlpha = true) :
    get_yfinance_data fetch t = FinData.err "Invalid ticker symbol" ∧
    get_yfinance_data fetch t = get_yfinance_data fetch2 t := by
  have hv : validate_ticker t = false := by
    cases hvt : validate_ticker t
    · rfl
    · exact absurd (validate_ticker_shape hvt) h
  simp [get_yfinance_data, hv]

/-- C8, refuted as stated: the string "AB" followed by a newline is not a
    string of 1-5 uppercase letters, yet `validate_ticker` accepts it — the
    Python `$` matches before a trailing newline — so `get_yfinance_data`
    consults the provider and returns its answer, whatever it is, rather
    than rejecting the input with the "Invalid ticker symbol" record. -/
theorem C8_counterexample :
    ("AB\n").data.all isUpperAlpha = false ∧
    validate_ticker "AB\n" = true ∧
    get_yfinance_data (fun _ => FinData.ok "snapshot") "AB\n"
        = FinData.ok "snapshot" ∧
    get_yfinance_data (fun _ => FinData.err "provider reached") "AB\n"
        = FinData.err "provider reached" := by
  decide

/-- C8, witness: the amended statement at a concrete input. -/
theorem C8_invalid_format_rejected_witness :
    (¬ ∃ w : List Char,
        (("tsla" : String).data = w ∨ ("tsla" : String).data = w ++ ['\n']) ∧
        w.isEmpty = false ∧ w.length ≤ 5 ∧ w.all isUpperAlpha = true) ∧
    (get_yfinance_data (fun _ => FinData.ok "snapshot") "tsla"
        = FinData.err "Invalid ticker symbol" ∧
     get_yfinance_data (fun _ => FinData.ok "snapshot") "tsla"
        = get_yfinance_data (fun _ => FinData.err "other") "tsla") := by
  have hh : ¬ ∃ w : List Char,
      (("tsla" : String).data = w ∨ ("tsla" : String).data = w ++ ['\n']) ∧
      w.isEmpty = false ∧ w.length ≤ 5 ∧ w.all isUpperAlpha = true := by
    rintro ⟨w, h1 | h2, hne, hlen, hall⟩
    · rw [← h1] at hall
      exact absurd hall (by decide)
    · have h3 : ("tsla" : String).data.getLast? = some '\n' := by
        rw [h2]
        exact List.getLast?_concat w
      exact absurd h3 (by decide)
  exact ⟨hh, C8_invalid_format_rejected (fun _ => FinData.ok "snapshot")
    (fun _ => FinData.err "other") "tsla" hh⟩

/-- C9 (confirmed): the pipeline is a deterministic function of the query
    and the capability environment; two runs with the same query against
    the same deterministic stubs agree on `final_report` byte for byte and
    on every other field, the `date` timestamp field alone excepted. -/
theorem C9_deterministic_modulo_date (env : Env) (ts1 ts2 query : String) :
    (investment_analysis_pipeline env ts1 query).final_report
      = (investment_analysis_pipeline env ts2 query).final_report ∧
    { investment_analysis_pipeline env ts1 query with date := none }
      = { investment_analysis_pipeline env ts2 query with date := none } := by
  unfold investment_analysis_pipeline
  by_cases hg : (!truthy (extract_company_name query)
      && !truthy (extract_ticker query)) = true
  · simp [hg]
  · rw [Bool.not_eq_true] at hg
    rw [hg]
    simp only [Bool.false_eq_true, if_false]
    rw [pipelineStages_date env ts1 ts2]
    exact ⟨rfl, rfl⟩

/-- C10 (confirmed): every ticker produced by `extract_ticker` passes
    `validate_ticker`, so for extracted tickers `get_yfinance_data` always
    reaches the provider: its "Invalid ticker symbol" branch is
    unreachable. -/
theorem C10_extracted_ticker_valid (query t : String)
    (fetch : String → FinData) (h : extract_ticker query = some t) :
    validate_ticker t = true ∧ get_yfinance_data fetch t = fetch t := by
  have hv := extract_ticker_validates h
  exact ⟨hv, by simp [get_yfinance_data, hv]⟩

/-- C10, witness: the statement at a concrete input. -/
theorem C10_extracted_ticker_valid_witness :
    extract_ticker "Evaluate AAPL stock" = some "AAPL" ∧
    (validate_ticker "AAPL" = true ∧
     get_yfinance_data (fun _ => FinData.ok "snapshot") "AAPL"
        = (fun _ => FinData.ok "snapshot") "AAPL") :=
  ⟨by decide,
    C10_extracted_ticker_valid "Evaluate AAPL stock" "AAPL"
      (fun _ => FinData.ok "snapshot") (by decide)⟩

end FinanceAnalysis
